import Mathlib

/-!
Verification development for the `alpha_tuning.ipynb` example of the
Koda-Retriever llama-index pack.  The notebook is straight-line code: it
configures third-party clients, builds a hand-authored category-to-alpha
table, constructs a `KodaRetriever` with that table, issues one retrieval
call and one query-engine call.  We embed the notebook's data (the category
table, the recorded retrieval output, the recorded response) and its
statement sequence, and prove the spec's claims about them.
-/

namespace AlphaTuning

/-- One value of the `categories` dictionary of the notebook.  Each Python
entry is a dict that may or may not carry the keys `alpha`, `description`
and `examples`, so all three fields are optional here; the source's format
comment says `alpha` is always required and `description`/`examples` are
optional when a fine-tuned model is provided. -/
structure CategoryEntry where
  alpha : Option ℚ
  description : Option String
  examples : Option (List String)
deriving DecidableEq

/-- The hand-authored `categories` dictionary of the notebook (cell
"Defining Categories & Alpha Values").  A Python dict preserves insertion
order, so it is embedded as an association list. -/
def categories : List (String × CategoryEntry) :=
  [ ("concept seeking query",
      { alpha := some 0.2
        description := some "Abstract questions, usually on a specific topic, that require multiple sentences to answer"
        examples := some
          [ "What is the dual-encoder architecture used in recent works on dense retrievers?"
          , "Why should I use semantic search to rank results?" ] })
  , ("fact seeking query",
      { alpha := some 0.6
        description := some "Queries with a single, clear answer"
        examples := some
          [ "What is the total number of propositions the English Wikipedia dump is segmented into in FACTOID WIKI?"
          , "How many documents are semantically ranked?" ] })
  , ("queries with misspellings",
      { alpha := some 1
        description := some "Queries with typos, transpositions and common misspellings introduced"
        examples := some
          [ "What is the advntage of prposition retrieval over sentnce or passage retrieval?"
          , "Ho w mny documents are samantically r4nked" ] }) ]

/-- The process environment, `os.environ`: a partial map from variable
names to values. -/
def ProcEnv : Type := String → Option String

/-- The Pinecone client object, as far as the notebook observes it: it is
constructed from an API key (`Pinecone(api_key=...)`). -/
structure PineconeClient where
  api_key : Option String
deriving DecidableEq

/-- `pc = Pinecone(api_key=os.environ.get("PINECONE_API_KEY"))` — the
client is built from the environment-variable lookup. -/
def pc (env : ProcEnv) : PineconeClient :=
  { api_key := env "PINECONE_API_KEY" }

/-- A Pinecone index handle, obtained from a client by name. -/
structure PineconeIndexObj where
  client : PineconeClient
  name : String
deriving DecidableEq

/-- `pc.Index("sample-movies")`. -/
def PineconeClient.Index (c : PineconeClient) (n : String) : PineconeIndexObj :=
  { client := c, name := n }

/-- `index = pc.Index("sample-movies")`. -/
def index (env : ProcEnv) : PineconeIndexObj :=
  (pc env).Index "sample-movies"

/-- `Settings.llm = OpenAI()`. -/
inductive LLMObj where
  | openAI
deriving DecidableEq

/-- `Settings.embed_model = OpenAIEmbedding()`. -/
inductive EmbedObj where
  | openAIEmbedding
deriving DecidableEq

/-- `PineconeVectorStore(pinecone_index=index, text_key="summary")`. -/
structure VectorStoreObj where
  pinecone_index : PineconeIndexObj
  text_key : String
deriving DecidableEq

/-- `vector_store = PineconeVectorStore(pinecone_index=index, text_key="summary")`. -/
def vector_store (env : ProcEnv) : VectorStoreObj :=
  { pinecone_index := index env, text_key := "summary" }

/-- `VectorStoreIndex.from_vector_store(vector_store=..., embed_model=...)`. -/
structure VectorIndexObj where
  store : VectorStoreObj
  embed : EmbedObj
deriving DecidableEq

/-- `vector_index = VectorStoreIndex.from_vector_store(vector_store=vector_store, embed_model=Settings.embed_model)`. -/
def vector_index (env : ProcEnv) : VectorIndexObj :=
  { store := vector_store env, embed := .openAIEmbedding }

/-- `reranker = LLMRerank(llm=Settings.llm)`. -/
structure RerankerObj where
  llm : LLMObj
deriving DecidableEq

/-- The optional LLM reranker constructed in the setup cell. -/
def reranker : RerankerObj :=
  { llm := .openAI }

/-- The `KodaRetriever` object as constructed by the notebook: it records
the index, the llm, the category matrix, the optional reranker and the
verbose flag given to the constructor. -/
structure KodaRetrieverObj where
  idx : VectorIndexObj
  llm : LLMObj
  matrix : List (String × CategoryEntry)
  rerank : Option RerankerObj
  verbose : Bool
deriving DecidableEq

/-- `retriever = KodaRetriever(index=vector_index, llm=Settings.llm,
matrix=categories, reranker=reranker, verbose=True)`. -/
def retriever (env : ProcEnv) : KodaRetrieverObj :=
  { idx := vector_index env
    llm := .openAI
    matrix := categories
    rerank := some reranker
    verbose := true }

/-- One element of the recorded retrieval output: a `NodeWithScore`,
keeping the fields the claims are about (node id, title metadata, text,
relevance score). -/
structure NodeWithScore where
  id_ : String
  title : String
  text : String
  score : ℚ
deriving DecidableEq

/-- The query string the notebook uses for both the retrieval call and the
query-engine call. -/
def query : String :=
  "Can you explain the Jurassic Park as a business as it was supposed to operate inside the movie\x27s lore or timeline?"

/-- The recorded output of `retriever.retrieve(query)` in the notebook:
two nodes with scores 8.0 and 7.0. -/
def results : List NodeWithScore :=
  [ { id_ := "33"
      title := "Jurassic Park"
      text := "A theme park showcasing genetically engineered dinosaurs turns into a nightmare when the creatures escape their enclosures, forcing the visitors to fight for survival."
      score := 8.0 }
  , { id_ := "7"
      title := "Jurassic World"
      text := "Set in a fully functioning dinosaur theme park on Isla Nublar, Jurassic World faces chaos when a genetically engineered dinosaur, the Indominus Rex, escapes. Stars Chris Pratt and Bryce Dallas Howard."
      score := 7.0 } ]

/-- Modelled from the spec: `KodaRetriever.retrieve` — the retriever
implementation lives in the koda-retriever package, which is not under
`src/`.  Per the spec it issues one blocking call to the external backend
and returns a ranked result sequence, retaining no state; the value
returned is the notebook's recorded output. -/
def KodaRetrieverObj.retrieve (_r : KodaRetrieverObj) (_q : String) :
    List NodeWithScore :=
  results

/-- `RetrieverQueryEngine.from_args(retriever=retriever)`: the query
engine wraps the retriever. -/
structure QueryEngineObj where
  retr : KodaRetrieverObj
deriving DecidableEq

/-- The recorded natural-language response of the query-engine call. -/
def recorded_response : String :=
  "Jurassic Park was intended to be a theme park that featured genetically engineered dinosaurs as its main attraction. Visitors were meant to experience the thrill of seeing these creatures up close in a controlled environment. However, due to unforeseen circumstances in the movie\x27s storyline, the dinosaurs escaped their enclosures, leading to chaos and danger for the visitors."

/-- Modelled from the spec: `query_engine.query` — the query-engine
implementation is a llama-index abstraction not under `src/`.  Per the
spec it retrieves and then synthesises a natural-language response; the
value returned is the notebook's recorded output. -/
def QueryEngineObj.query (_e : QueryEngineObj) (_q : String) : String :=
  recorded_response

/-- A runtime value bound to a notebook variable. -/
inductive Value where
  | pineconeV (c : PineconeClient)
  | pineconeIndexV (i : PineconeIndexObj)
  | llmV (m : LLMObj)
  | embedV (m : EmbedObj)
  | storeV (s : VectorStoreObj)
  | vindexV (v : VectorIndexObj)
  | rerankerV (r : RerankerObj)
  | tableV (t : List (String × CategoryEntry))
  | retrieverV (r : KodaRetrieverObj)
  | strV (s : String)
  | resultsV (rs : List NodeWithScore)
  | engineV (e : QueryEngineObj)
deriving DecidableEq

/-- The variable environment of the running notebook: bindings from
variable names to values, most recent first. -/
def VarEnv : Type := List (String × Value)

/-- The statements of the notebook's code cells, in source order.  Each
constructor transcribes one assignment of the notebook. -/
inductive Stmt where
  | assignPc
  | assignIndex
  | assignSettingsLlm
  | assignSettingsEmbed
  | assignVectorStore
  | assignVectorIndex
  | assignReranker
  | assignCategories
  | assignRetriever
  | assignQuery
  | assignResults
  | assignQueryEngine
  | assignResponse
deriving DecidableEq

/-- One step of the notebook: execute a statement in a variable
environment.  External constructors are the modelled objects above; the
two calls (`retriever.retrieve(query)` and `query_engine.query(query)`)
read their receiver and argument from the environment.  A statement whose
variables are unbound is a no-op (Python would raise a NameError; in the
actual trace every lookup succeeds, which the theorems check). -/
def exec (env : ProcEnv) (s : Stmt) (σ : VarEnv) : VarEnv :=
  match s with
  | .assignPc => ("pc", .pineconeV (pc env)) :: σ
  | .assignIndex => ("index", .pineconeIndexV (index env)) :: σ
  | .assignSettingsLlm => ("Settings.llm", .llmV .openAI) :: σ
  | .assignSettingsEmbed => ("Settings.embed_model", .embedV .openAIEmbedding) :: σ
  | .assignVectorStore => ("vector_store", .storeV (vector_store env)) :: σ
  | .assignVectorIndex => ("vector_index", .vindexV (vector_index env)) :: σ
  | .assignReranker => ("reranker", .rerankerV reranker) :: σ
  | .assignCategories => ("categories", .tableV categories) :: σ
  | .assignRetriever =>
    match σ.lookup "vector_index", σ.lookup "categories", σ.lookup "reranker" with
    | some (.vindexV v), some (.tableV t), some (.rerankerV r) =>
      ("retriever", .retrieverV
        { idx := v, llm := .openAI, matrix := t, rerank := some r, verbose := true }) :: σ
    | _, _, _ => σ
  | .assignQuery => ("query", .strV query) :: σ
  | .assignResults =>
    match σ.lookup "retriever", σ.lookup "query" with
    | some (.retrieverV r), some (.strV q) =>
      ("results", .resultsV (r.retrieve q)) :: σ
    | _, _ => σ
  | .assignQueryEngine =>
    match σ.lookup "retriever" with
    | some (.retrieverV r) => ("query_engine", .engineV { retr := r }) :: σ
    | _ => σ
  | .assignResponse =>
    match σ.lookup "query_engine", σ.lookup "query" with
    | some (.engineV e), some (.strV q) =>
      ("response", .strV (e.query q)) :: σ
    | _, _ => σ

/-- The notebook's statements in source order: the setup cell, the
category table, the retriever construction, the retrieval cell and the
query-engine cell. -/
def notebookStmts : List Stmt :=
  [ .assignPc, .assignIndex, .assignSettingsLlm, .assignSettingsEmbed
  , .assignVectorStore, .assignVectorIndex, .assignReranker
  , .assignCategories
  , .assignRetriever
  , .assignQuery, .assignResults
  , .assignQueryEngine, .assignResponse ]

/-- Run a statement list from the empty variable environment. -/
def run (env : ProcEnv) (stmts : List Stmt) : VarEnv :=
  stmts.foldl (fun σ s => exec env s σ) []

/-- A configuration error of the alpha resolver: the classified label has
no entry in the category table. -/
inductive KodaError where
  | configError (label : String)
deriving DecidableEq

/-- Modelled from the spec: the Alpha Resolver — "a pure function table
lookup; fails with a configuration error if a label has no entry".  The
resolver implementation lives in the koda-retriever package, which is not
under `src/`.  A present entry without an alpha is also a configuration
error, since the spec's invariant is that every entry has one. -/
def resolveAlpha (matrix : List (String × CategoryEntry)) (label : String) :
    Except KodaError ℚ :=
  match matrix.lookup label with
  | some e =>
    match e.alpha with
    | some a => .ok a
    | none => .error (.configError label)
  | none => .error (.configError label)

/-- Modelled from the spec: the Category Classifier — "given a query and
the category table, returns a category label; on ambiguous input it would
fail by returning a default category rather than erroring".  No classifier
implementation is under `src/`, so the underlying model's raw judgment on
the query is an oracle parameter `judge`; a judgment that is absent or
names no table entry is ambiguous and falls back to the default label. -/
def classify (judge : String → Option String)
    (matrix : List (String × CategoryEntry)) (defaultLabel : String)
    (q : String) : Except KodaError String :=
  match judge q with
  | some l => if (matrix.lookup l).isSome then .ok l else .ok defaultLabel
  | none => .ok defaultLabel

/-- Modelled from the spec: a query is ambiguous for the classifier when
the model's raw judgment is absent or is not a key of the category
table. -/
def ambiguousQuery (judge : String → Option String)
    (matrix : List (String × CategoryEntry)) (q : String) : Bool :=
  match judge q with
  | some l => (matrix.lookup l).isNone
  | none => true

/-- C1: the hand-authored category table defines exactly the three
categories "concept seeking query", "fact seeking query" and "queries with
misspellings", with alpha weights 0.2, 0.6 and 1 respectively, and the
KodaRetriever is constructed with exactly this table as its matrix. -/
theorem c1_table_contents_and_matrix (env : ProcEnv) :
    categories.map Prod.fst =
      ["concept seeking query", "fact seeking query", "queries with misspellings"] ∧
    categories.map (fun p => p.2.alpha) = [some 0.2, some 0.6, some 1] ∧
    (retriever env).matrix = categories :=
  ⟨rfl, rfl, rfl⟩

/-- C2: every entry of the category table has an alpha value lying in the
closed interval [0, 1]. -/
theorem c2_alphas_in_unit_interval :
    List.Forall (fun p => ∃ a, p.2.alpha = some a ∧ 0 ≤ a ∧ a ≤ 1) categories := by
  simp only [categories, List.Forall]
  exact ⟨⟨0.2, rfl, by norm_num, by norm_num⟩,
    ⟨0.6, rfl, by norm_num, by norm_num⟩,
    ⟨1, rfl, by norm_num, by norm_num⟩⟩

/-- C3: the table has three entries, and every entry carries an alpha, a
description and an examples list (description and examples appear
together, as required when no pre-trained classifier is supplied). -/
theorem c3_entries_complete :
    categories.length = 3 ∧
    categories.all (fun p =>
      p.2.alpha.isSome && p.2.description.isSome && p.2.examples.isSome) = true :=
  ⟨rfl, by decide⟩

/-- C4: the recorded retrieval output is ranked by relevance: its scores
are 8.0 followed by 7.0, a non-increasing sequence. -/
theorem c4_recorded_scores_ranked :
    results.map NodeWithScore.score = [8.0, 7.0] ∧
    List.Chain' (fun a b => b ≤ a) (results.map NodeWithScore.score) := by
  refine ⟨rfl, ?_⟩
  simp only [results, List.map, List.chain'_cons, List.chain'_singleton, and_true]
  norm_num

/-- C5: the category table is constructed by exactly one statement of the
notebook, and in every state after that statement (retriever construction,
retrieval call, query-engine construction and call) the `categories`
binding is still exactly the original table; the retriever built from it
holds that same table as its matrix at the end of the run. -/
theorem c5_table_never_modified (env : ProcEnv) :
    notebookStmts.count .assignCategories = 1 ∧
    List.Forall
      (fun k => (run env (notebookStmts.take k)).lookup "categories" =
        some (.tableV categories))
      [8, 9, 10, 11, 12, 13] ∧
    (run env notebookStmts).lookup "retriever" =
      some (.retrieverV (retriever env)) := by
  refine ⟨by decide, ?_, rfl⟩
  simp only [List.Forall]
  exact ⟨rfl, rfl, rfl, rfl, rfl, rfl⟩

/-- C6: the notebook contains exactly one retrieval call and exactly one
query-engine call; at both call sites the `query` variable holds the same
string, and the recorded bindings are the results of calling with it. -/
theorem c6_one_retrieve_one_query_call (env : ProcEnv) :
    notebookStmts.count .assignResults = 1 ∧
    notebookStmts.count .assignResponse = 1 ∧
    (run env (notebookStmts.take 10)).lookup "query" = some (.strV query) ∧
    (run env (notebookStmts.take 12)).lookup "query" = some (.strV query) ∧
    (run env notebookStmts).lookup "results" =
      some (.resultsV ((retriever env).retrieve query)) ∧
    (run env notebookStmts).lookup "response" =
      some (.strV (QueryEngineObj.query { retr := retriever env } query)) :=
  ⟨by decide, by decide, rfl, rfl, rfl, rfl⟩

/-- C7: the alpha resolver is a table lookup that fails with a
configuration error whenever the given label has no entry in the
table. -/
theorem c7_resolver_errors_on_missing_label
    (matrix : List (String × CategoryEntry)) (label : String)
    (h : matrix.lookup label = none) :
    resolveAlpha matrix label = .error (.configError label) := by
  simp [resolveAlpha, h]

/-- Witness for C7: the label "keyword query" has no entry in the
notebook's table, and resolving it is a configuration error. -/
theorem c7_resolver_errors_witness :
    categories.lookup "keyword query" = none ∧
    resolveAlpha categories "keyword query" =
      Except.error (.configError "keyword query") :=
  ⟨by decide, c7_resolver_errors_on_missing_label categories "keyword query" (by decide)⟩

/-- C8: on every ambiguous query input the classifier returns the default
category label (an `ok` value, never an error). -/
theorem c8_classifier_defaults_on_ambiguous
    (judge : String → Option String) (matrix : List (String × CategoryEntry))
    (d q : String) (h : ambiguousQuery judge matrix q = true) :
    classify judge matrix d q = .ok d := by
  unfold ambiguousQuery at h
  unfold classify
  cases hj : judge q with
  | none => rfl
  | some l =>
    rw [hj] at h
    simp only [Option.isNone_iff_eq_none] at h
    simp [h]

/-- Witness for C8: a judge that abstains makes the notebook's query
ambiguous, and the classifier returns the default label on it. -/
theorem c8_classifier_defaults_witness :
    classify (fun _ => none) categories "concept seeking query" query =
      Except.ok "concept seeking query" :=
  c8_classifier_defaults_on_ambiguous (fun _ => none) categories
    "concept seeking query" query (by decide)

/-- C9: the Pinecone client is constructed with the value of the
environment variable PINECONE_API_KEY as its credential. -/
theorem c9_pinecone_key_from_env (env : ProcEnv) :
    (pc env).api_key = env "PINECONE_API_KEY" :=
  rfl

/-- C10: the optional LLM reranker is supplied to the retriever, and every
score of the recorded retrieval output (8.0 and 7.0) is strictly greater
than 1, so the scores are not normalized similarities in [0, 1]. -/
theorem c10_scores_not_normalized (env : ProcEnv) :
    (retriever env).rerank = some reranker ∧
    List.Forall (fun r => 1 < r.score) results := by
  refine ⟨rfl, ?_⟩
  simp only [results, List.Forall]
  norm_num

end AlphaTuning
